import Mathlib

/-!
Shallow embedding of `utilities/mcp/mcp_connect.py` (the only source file of
the repository).  Tool handles are opaque and modelled as natural numbers.
Time is modelled in abstract integer units.  The external tool-source factory
(`MCPConnector._build_toolset`, left as a stub in the source) and the external
asynchronous `get_tools()` capability are modelled as a behaviour carried by
each descriptor: each mapping descriptor records whether building the toolset
raises, whether the awaited `get_tools()` call raises, or which handle list it
returns after which duration.  `asyncio.wait_for` is modelled as: the awaited
call succeeds iff its duration is strictly below the timeout; otherwise
`asyncio.TimeoutError` is raised (so a duration exactly equal to the timeout
times out).
-/

/-- Python exceptions distinguished by the except-clauses of
`MCPConnector._load_all_tools` (FileNotFoundError; httpx.ConnectError and
httpx.TimeoutException; asyncio.TimeoutError; everything else), plus the
AttributeError raised by `server_cfg.get` when a descriptor is not a mapping. -/
inductive PyExc where
  | fileNotFound (msg : String)
  | httpxConnectError (msg : String)
  | httpxTimeoutException (msg : String)
  | asyncioTimeout
  | attributeError (msg : String)
  | otherError (ty : String) (msg : String)
deriving DecidableEq, Repr

/-- Behaviour of the external collaborators for one descriptor:
`_build_toolset(server_cfg)` may raise synchronously, the awaited
`toolset.get_tools()` may raise, or it returns a handle list after a
duration (in the same abstract units as the timeout). -/
inductive StepBehavior where
  | buildRaises (e : PyExc)
  | callRaises (e : PyExc)
  | returns (tools : List Nat) (duration : Nat)
deriving DecidableEq, Repr

/-- One element of `self.servers`: either a mapping (a Python dict, whose
`name` key may be absent) together with its external behaviour, or a
non-mapping value, on which `server_cfg.get("name", ...)` raises
AttributeError before the try-block is entered. -/
inductive ServerCfg where
  | mapping (name : Option String) (beh : StepBehavior)
  | nonMapping (msg : String)
deriving DecidableEq, Repr

def ServerCfg.isMapping : ServerCfg → Bool
  | .mapping _ _ => true
  | .nonMapping _ => false

/-- The descriptor name used in log and failure messages:
`server_cfg.get("name", "<unnamed>")`. -/
def ServerCfg.cfgName : ServerCfg → String
  | .mapping nm _ => nm.getD "<unnamed>"
  | .nonMapping _ => "<unnamed>"

/-- Tail of the failure message recorded for an exception, after the server
name, exactly as formatted by the except-clauses of `_load_all_tools`. -/
def msgSuffix (timeout_s : Nat) : PyExc → String
  | .fileNotFound m => ": command not found (" ++ m ++ ")"
  | .httpxConnectError m => ": cannot connect (" ++ m ++ ")"
  | .httpxTimeoutException m => ": cannot connect (" ++ m ++ ")"
  | .asyncioTimeout => ": get_tools() timed out after " ++ toString timeout_s ++ "s"
  | .attributeError m => ": unexpected error (AttributeError: " ++ m ++ ")"
  | .otherError ty m => ": unexpected error (" ++ ty ++ ": " ++ m ++ ")"

/-- The body of the try-block for one mapping descriptor:
`toolset = self._build_toolset(server_cfg)` followed by
`await asyncio.wait_for(toolset.get_tools(), timeout=self.timeout_s)`.
Returns the handles or the raised exception, together with whether the
list-tools capability was invoked at all (it is not when the factory
raises). -/
def runStep (timeout_s : Nat) : StepBehavior → Except PyExc (List Nat) × Bool
  | .buildRaises e => (.error e, false)
  | .callRaises e => (.error e, true)
  | .returns ts d => if d < timeout_s then (.ok ts, true) else (.error .asyncioTimeout, true)

/-- Result of running the descriptor loop of `_load_all_tools`: the exception
that escaped (from a non-mapping descriptor), the accumulated `loaded_tools`
and `failures` locals, and how many times the factory and the list-tools
capability were invoked. -/
structure LoopOut where
  err : Option PyExc
  tools : List Nat
  failures : List String
  factoryCalls : Nat
  listCalls : Nat
deriving DecidableEq, Repr

/-- The `for server_cfg in self.servers` loop of `_load_all_tools`.  A
non-mapping descriptor raises AttributeError at `server_cfg.get` (outside the
try-block), aborting the loop; every exception inside the try-block is caught
and appended to `failures`.  Invocation counts accumulate even when a later
descriptor aborts the loop, since the earlier calls already happened. -/
def loadLoop (timeout_s : Nat) : List ServerCfg → LoopOut
  | [] => ⟨none, [], [], 0, 0⟩
  | .nonMapping m :: _ => ⟨some (.attributeError m), [], [], 0, 0⟩
  | .mapping nm beh :: rest =>
    let name := nm.getD "<unnamed>"
    let step := runStep timeout_s beh
    let o := loadLoop timeout_s rest
    match step.1 with
    | .ok ts =>
        ⟨o.err, ts ++ o.tools, o.failures,
         o.factoryCalls + 1, o.listCalls + (if step.2 then 1 else 0)⟩
    | .error e =>
        ⟨o.err, o.tools, (name ++ msgSuffix timeout_s e) :: o.failures,
         o.factoryCalls + 1, o.listCalls + (if step.2 then 1 else 0)⟩

/-- The mutable state of an `MCPConnector` instance. -/
structure ConnState where
  timeout_s : Nat
  servers : List ServerCfg
  tools : List Nat
  loaded : Bool
deriving DecidableEq, Repr

/-- `MCPConnector.__init__` once `self.servers` is known: `self._tools = []`,
`self._loaded = False`. -/
def initConnState (servers : List ServerCfg) (timeout_s : Nat) : ConnState :=
  ⟨timeout_s, servers, [], false⟩

/-- `MCPConnector._load_all_tools`.  Returns immediately when `self._loaded`;
otherwise runs the loop, and only when no exception escapes stores the merged
list and sets the flag (`self._tools = loaded_tools; self._loaded = True` sit
after the loop, so an escaping exception leaves the state untouched). -/
def load_all_tools (st : ConnState) : LoopOut × ConnState :=
  if st.loaded then (⟨none, [], [], 0, 0⟩, st)
  else
    let o := loadLoop st.timeout_s st.servers
    match o.err with
    | some _ => (o, st)
    | none => (o, { st with tools := o.tools, loaded := true })

/-- Observable outcome of one `get_tools()` call: the returned list (`none`
when an exception propagated to the caller), the propagated exception, the
state of the instance after the call, the failure records of this call, and
the external-invocation counts of this call. -/
structure CallOut where
  ret : Option (List Nat)
  err : Option PyExc
  st : ConnState
  failures : List String
  factoryCalls : Nat
  listCalls : Nat
deriving DecidableEq, Repr

/-- `MCPConnector.get_tools`: `await self._load_all_tools()` then
`return list(self._tools)` (the returned value is a fresh list equal to the
cache; aliasing is modelled separately by the store-based functions below). -/
def get_tools (st : ConnState) : CallOut :=
  let r := load_all_tools st
  match r.1.err with
  | some e => ⟨none, some e, r.2, r.1.failures, r.1.factoryCalls, r.1.listCalls⟩
  | none => ⟨some r.2.tools, none, r.2, r.1.failures, r.1.factoryCalls, r.1.listCalls⟩

/-! Config-file loading (`_load_servers_from_file` and the config branch of
`__init__`).  A Python value found under one of the recognized keys is either
a list of descriptors or some other value, of which only truthiness matters. -/

/-- A value under one of the keys `servers` / `mcpServers` / `mcp_servers`. -/
inductive PyVal where
  | pyList (xs : List ServerCfg)
  | pyOther (truthy : Bool)
deriving DecidableEq, Repr

/-- Python truthiness: a list is truthy iff non-empty. -/
def PyVal.isTruthy : PyVal → Bool
  | .pyList xs => !xs.isEmpty
  | .pyOther b => b

/-- Python `x or y` over optional dict lookups (`dict.get` yields None for a
missing key, and `or` skips any falsy value, including an empty list). -/
def pyOr (x y : Option PyVal) : Option PyVal :=
  match x with
  | some v => if v.isTruthy then some v else y
  | none => y

/-- Parsed top level of the config file: a list, a mapping (only the three
recognized keys are consulted, via `dict.get`), or anything else. -/
inductive ParsedData where
  | dataList (xs : List ServerCfg)
  | dataDict (servers : Option PyVal) (mcpServers : Option PyVal) (mcp_servers : Option PyVal)
  | dataOther
deriving DecidableEq, Repr

/-- Error taxonomy of `_load_servers_from_file`:
FileNotFoundError when the path does not exist, RuntimeError when a YAML file
is requested without PyYAML, a parse error from `json.loads` / `yaml.safe_load`,
ValueError when no recognized key holds a truthy value,
TypeError when the selected value is not a list, and TypeError for an
unsupported top-level shape. -/
inductive ConfigError where
  | notFound
  | dependencyMissing
  | parseError
  | noServersKey
  | wrongType
  | unsupportedFormat
deriving DecidableEq, Repr

/-- A config file as `_load_servers_from_file` observes it: whether the path
exists, whether the suffix is `.yaml`/`.yml`, whether PyYAML is importable,
and the parsed content (`none` when the text fails to parse). -/
structure FileModel where
  pathExists : Bool
  suffixYaml : Bool
  yamlInstalled : Bool
  content : Option ParsedData
deriving DecidableEq, Repr

/-- `_load_servers_from_file`. -/
def load_servers_from_file (f : FileModel) : Except ConfigError (List ServerCfg) :=
  if !f.pathExists then .error .notFound
  else if f.suffixYaml && !f.yamlInstalled then .error .dependencyMissing
  else
    match f.content with
    | none => .error .parseError
    | some (.dataDict a b c) =>
      match pyOr (pyOr a b) c with
      | none => .error .noServersKey
      | some (.pyList xs) => .ok xs
      | some (.pyOther _) => .error .wrongType
    | some (.dataList xs) => .ok xs
    | some .dataOther => .error .unsupportedFormat

/-- `MCPConnector.__init__`: an explicit `servers` argument wins outright;
otherwise the resolved config path (modelled as an optional `FileModel`, since
`_default_servers_config_path` is pure filesystem probing) is loaded, and any
exception from `_load_servers_from_file` is caught (`except Exception`),
logged, and replaced by the empty list. -/
def mcpConnectorInit (servers : Option (List ServerCfg)) (resolved : Option FileModel)
    (timeout_s : Nat) : ConnState :=
  match servers with
  | some s => initConnState s timeout_s
  | none =>
    match resolved with
    | none => initConnState [] timeout_s
    | some f =>
      match load_servers_from_file f with
      | .ok s => initConnState s timeout_s
      | .error _ => initConnState [] timeout_s

/-! Store-based model of `return list(self._tools)` for the aliasing claim:
Python lists are heap cells holding sequences of opaque handles. -/

/-- A heap of Python list objects; a reference is an index into the heap. -/
structure Store where
  cells : List (List Nat)
deriving DecidableEq, Repr

def Store.read (s : Store) (r : Nat) : List Nat := s.cells.getD r []

def Store.alloc (s : Store) (v : List Nat) : Store × Nat :=
  (⟨s.cells ++ [v]⟩, s.cells.length)

/-- In-place mutation of the list object behind a reference (append, remove,
any rewrite of its contents). -/
def Store.mutate (s : Store) (r : Nat) (v : List Nat) : Store :=
  ⟨s.cells.set r v⟩

/-- `MCPConnector.get_tools` on a loaded instance, at heap level: `self._tools`
is the cell behind `toolsRef`; `list(self._tools)` allocates a fresh cell
holding a copy of its contents and returns a reference to the fresh cell. -/
def get_tools_heap (toolsRef : Nat) (s : Store) : Store × Nat :=
  s.alloc (s.read toolsRef)

/-! Helper predicates and projections used to state the claims. -/

/-- A descriptor whose factory succeeds and whose `get_tools()` call returns
strictly within the timeout. -/
def succeedsB (timeout_s : Nat) : ServerCfg → Bool
  | .mapping _ (.returns _ d) => decide (d < timeout_s)
  | _ => false

/-- The handles a descriptor contributes on success (empty otherwise). -/
def ServerCfg.okTools (timeout_s : Nat) : ServerCfg → List Nat
  | .mapping _ (.returns ts d) => if d < timeout_s then ts else []
  | _ => []

/-- Concatenation of the per-descriptor handle lists, in descriptor order. -/
def concatTools (timeout_s : Nat) : List ServerCfg → List Nat
  | [] => []
  | e :: rest => ServerCfg.okTools timeout_s e ++ concatTools timeout_s rest

/-- The exception a behaviour is skipped with (after `asyncio.wait_for`
converts a duration reaching the timeout into `asyncio.TimeoutError`);
`none` for a successful behaviour. -/
def behSkipExc (timeout_s : Nat) : StepBehavior → Option PyExc
  | .buildRaises e => some e
  | .callRaises e => some e
  | .returns _ d => if d < timeout_s then none else some .asyncioTimeout

/-- A mapping descriptor whose factory call does not raise (so the list-tools
capability is actually invoked, successfully or not). -/
def noBuildFail : ServerCfg → Bool
  | .mapping _ (.buildRaises _) => false
  | .mapping _ _ => true
  | .nonMapping _ => false

lemma succeedsB_shape {t : Nat} {e : ServerCfg} (h : succeedsB t e = true) :
    ∃ nm ts d, e = .mapping nm (.returns ts d) ∧ d < t := by
  cases e with
  | nonMapping m => simp [succeedsB] at h
  | mapping nm beh =>
    cases beh with
    | buildRaises e => simp [succeedsB] at h
    | callRaises e => simp [succeedsB] at h
    | returns ts d =>
      exact ⟨nm, ts, d, rfl, by simpa [succeedsB] using h⟩

lemma runStep_skip {t : Nat} {beh : StepBehavior} {e : PyExc}
    (h : behSkipExc t beh = some e) : (runStep t beh).1 = .error e := by
  cases beh with
  | buildRaises x => simp [behSkipExc] at h; simp [runStep, h]
  | callRaises x => simp [behSkipExc] at h; simp [runStep, h]
  | returns ts d =>
    by_cases hd : d < t
    · simp [behSkipExc, hd] at h
    · simp [behSkipExc, hd] at h
      simp [runStep, hd, ← h]

/-- Running the loop on an all-successful prefix prepends its handles in
descriptor order and leaves everything else to the remaining descriptors. -/
lemma loadLoop_append_ok (t : Nat) (pre rest : List ServerCfg)
    (h : ∀ e ∈ pre, succeedsB t e = true) :
    loadLoop t (pre ++ rest) =
      ⟨(loadLoop t rest).err,
       concatTools t pre ++ (loadLoop t rest).tools,
       (loadLoop t rest).failures,
       (loadLoop t rest).factoryCalls + pre.length,
       (loadLoop t rest).listCalls + pre.length⟩ := by
  induction pre with
  | nil => simp [concatTools]
  | cons e pre ih =>
    obtain ⟨nm, ts, d, rfl, hd⟩ := succeedsB_shape (h e (by simp))
    have ih' := ih (fun x hx => h x (by simp [hx]))
    simp only [List.cons_append, loadLoop, runStep, if_pos hd, concatTools,
      ServerCfg.okTools, List.length_cons, List.append_eq]
    rw [ih']
    simp [List.append_assoc, Nat.add_assoc]

/-- On an all-mapping descriptor list no exception escapes the loop and the
factory is invoked once per descriptor. -/
lemma loadLoop_mapping (t : Nat) (servers : List ServerCfg)
    (h : ∀ e ∈ servers, e.isMapping = true) :
    (loadLoop t servers).err = none ∧
    (loadLoop t servers).factoryCalls = servers.length := by
  induction servers with
  | nil => simp [loadLoop]
  | cons e rest ih =>
    have ih' := ih (fun x hx => h x (by simp [hx]))
    cases e with
    | nonMapping m => simpa [ServerCfg.isMapping] using h (.nonMapping m) (by simp)
    | mapping nm beh =>
      cases hstep : (runStep t beh).1 with
      | ok ts => simp [loadLoop, hstep, ih']
      | error e => simp [loadLoop, hstep, ih']

/-- When additionally no factory call raises, the list-tools capability is
also invoked once per descriptor. -/
lemma loadLoop_noBuildFail (t : Nat) (servers : List ServerCfg)
    (h : ∀ e ∈ servers, noBuildFail e = true) :
    (loadLoop t servers).listCalls = servers.length := by
  induction servers with
  | nil => simp [loadLoop]
  | cons e rest ih =>
    have ih' := ih (fun x hx => h x (by simp [hx]))
    cases e with
    | nonMapping m => simpa [noBuildFail] using h (.nonMapping m) (by simp)
    | mapping nm beh =>
      cases beh with
      | buildRaises x =>
        simpa [noBuildFail] using h (.mapping nm (.buildRaises x)) (by simp)
      | callRaises x => simp [loadLoop, runStep, ih']
      | returns ts d =>
        by_cases hd : d < t
        · simp [loadLoop, runStep, hd, ih']
        · simp [loadLoop, runStep, hd, ih']

lemma noBuildFail_isMapping {e : ServerCfg} (h : noBuildFail e = true) :
    e.isMapping = true := by
  cases e with
  | nonMapping m => simp [noBuildFail] at h
  | mapping nm beh => simp [ServerCfg.isMapping]

/-- Reaching a non-mapping descriptor after an all-mapping prefix raises
AttributeError out of the loop, after one factory call per prefix entry. -/
lemma loadLoop_nonMapping (t : Nat) (pre rest : List ServerCfg) (m : String)
    (h : ∀ e ∈ pre, e.isMapping = true) :
    (loadLoop t (pre ++ .nonMapping m :: rest)).err = some (.attributeError m) ∧
    (loadLoop t (pre ++ .nonMapping m :: rest)).factoryCalls = pre.length := by
  induction pre with
  | nil => simp [loadLoop]
  | cons e pre ih =>
    have ih' := ih (fun x hx => h x (by simp [hx]))
    cases e with
    | nonMapping m2 => simpa [ServerCfg.isMapping] using h (.nonMapping m2) (by simp)
    | mapping nm beh =>
      cases hstep : (runStep t beh).1 with
      | ok ts => simp [loadLoop, hstep, ih']
      | error e => simp [loadLoop, hstep, ih']

/-- Unfolding of `get_tools` on a fresh instance whose load pass completes. -/
lemma get_tools_ok (t : Nat) (servers : List ServerCfg)
    (h : (loadLoop t servers).err = none) :
    get_tools (initConnState servers t) =
      ⟨some (loadLoop t servers).tools, none,
       ⟨t, servers, (loadLoop t servers).tools, true⟩,
       (loadLoop t servers).failures, (loadLoop t servers).factoryCalls,
       (loadLoop t servers).listCalls⟩ := by
  simp [get_tools, load_all_tools, initConnState, h]

/-- Unfolding of `get_tools` on a fresh instance whose load pass is aborted
by an escaping exception: the exception propagates and the state is kept. -/
lemma get_tools_err (t : Nat) (servers : List ServerCfg) (e : PyExc)
    (h : (loadLoop t servers).err = some e) :
    get_tools (initConnState servers t) =
      ⟨none, some e, initConnState servers t, (loadLoop t servers).failures,
       (loadLoop t servers).factoryCalls, (loadLoop t servers).listCalls⟩ := by
  simp [get_tools, load_all_tools, initConnState, h]

/-- Unfolding of `get_tools` on an already-loaded instance: the cached list is
returned and nothing external is invoked. -/
lemma get_tools_loaded (st : ConnState) (h : st.loaded = true) :
    get_tools st = ⟨some st.tools, none, st, [], 0, 0⟩ := by
  simp [get_tools, load_all_tools, h]

/-- Claim C1: for every descriptor list whose tool sources are all constructed
successfully and whose asynchronous get_tools() calls all succeed within the
timeout, getTools() returns the concatenation of each source's handle lists in
descriptor-list order (handles within each source kept in returned order),
with no failure recorded and no exception; the order is the descriptor order
by construction, never completion order. -/
theorem c1_getTools_concat_in_descriptor_order (t : Nat) (servers : List ServerCfg)
    (h : ∀ e ∈ servers, succeedsB t e = true) :
    (get_tools (initConnState servers t)).ret = some (concatTools t servers) ∧
    (get_tools (initConnState servers t)).failures = [] ∧
    (get_tools (initConnState servers t)).err = none := by
  have hl := loadLoop_append_ok t servers [] h
  rw [List.append_nil] at hl
  have hln : (loadLoop t servers).err = none := by simp [hl, loadLoop]
  rw [get_tools_ok t servers hln, hl]
  simp [loadLoop]

/-- Witness for C1 at a concrete two-descriptor list. -/
theorem c1_witness :
    (∀ e ∈ [ServerCfg.mapping (some "a") (.returns [1, 2] 3),
            ServerCfg.mapping none (.returns [5] 0)], succeedsB 10 e = true) ∧
    ((get_tools (initConnState [ServerCfg.mapping (some "a") (.returns [1, 2] 3),
          ServerCfg.mapping none (.returns [5] 0)] 10)).ret =
        some (concatTools 10 [ServerCfg.mapping (some "a") (.returns [1, 2] 3),
          ServerCfg.mapping none (.returns [5] 0)]) ∧
      (get_tools (initConnState [ServerCfg.mapping (some "a") (.returns [1, 2] 3),
          ServerCfg.mapping none (.returns [5] 0)] 10)).failures = [] ∧
      (get_tools (initConnState [ServerCfg.mapping (some "a") (.returns [1, 2] 3),
          ServerCfg.mapping none (.returns [5] 0)] 10)).err = none) :=
  ⟨by decide, c1_getTools_concat_in_descriptor_order 10 _ (by decide)⟩

/-- Claim C2: when exactly one descriptor K fails with any of the four
per-server error kinds (build failure, raised connect or timeout exception,
any other exception, or a get_tools() duration reaching the timeout — the
boundary duration included) and all other descriptors succeed, getTools()
returns the concatenation of the successful sources' handles in original
order with nothing from K, and exactly one failure record is kept, beginning
with K's name; a timed-out descriptor contributes a timeout failure record,
never handles. -/
theorem c2_single_failure_skipped (t : Nat) (pre post : List ServerCfg)
    (K : String) (beh : StepBehavior) (exc : PyExc)
    (hpre : ∀ e ∈ pre, succeedsB t e = true)
    (hpost : ∀ e ∈ post, succeedsB t e = true)
    (hfail : behSkipExc t beh = some exc) :
    (get_tools (initConnState (pre ++ ServerCfg.mapping (some K) beh :: post) t)).ret =
        some (concatTools t pre ++ concatTools t post) ∧
    (get_tools (initConnState (pre ++ ServerCfg.mapping (some K) beh :: post) t)).failures =
        [K ++ msgSuffix t exc] ∧
    (get_tools (initConnState (pre ++ ServerCfg.mapping (some K) beh :: post) t)).err =
        none := by
  have hpostl := loadLoop_append_ok t post [] hpost
  rw [List.append_nil] at hpostl
  have hmid : loadLoop t (ServerCfg.mapping (some K) beh :: post) =
      ⟨none, concatTools t post, [K ++ msgSuffix t exc],
       (loadLoop t post).factoryCalls + 1,
       (loadLoop t post).listCalls + (if (runStep t beh).2 then 1 else 0)⟩ := by
    simp only [loadLoop, runStep_skip hfail, Option.getD_some]
    rw [hpostl]
    simp [loadLoop]
  have hall := loadLoop_append_ok t pre (ServerCfg.mapping (some K) beh :: post) hpre
  rw [hmid] at hall
  have herr : (loadLoop t (pre ++ ServerCfg.mapping (some K) beh :: post)).err = none := by
    simp [hall]
  rw [get_tools_ok _ _ herr, hall]
  simp

/-- Witness for C2 with the failing descriptor timing out exactly at the
boundary duration (duration = timeout = 10). -/
theorem c2_witness :
    ((∀ e ∈ [ServerCfg.mapping (some "a") (.returns [1] 0)], succeedsB 10 e = true) ∧
     (∀ e ∈ [ServerCfg.mapping none (.returns [2] 5)], succeedsB 10 e = true) ∧
     behSkipExc 10 (.returns [9] 10) = some .asyncioTimeout) ∧
    ((get_tools (initConnState ([ServerCfg.mapping (some "a") (.returns [1] 0)] ++
          ServerCfg.mapping (some "srv") (.returns [9] 10) ::
          [ServerCfg.mapping none (.returns [2] 5)]) 10)).ret =
        some (concatTools 10 [ServerCfg.mapping (some "a") (.returns [1] 0)] ++
          concatTools 10 [ServerCfg.mapping none (.returns [2] 5)]) ∧
      (get_tools (initConnState ([ServerCfg.mapping (some "a") (.returns [1] 0)] ++
          ServerCfg.mapping (some "srv") (.returns [9] 10) ::
          [ServerCfg.mapping none (.returns [2] 5)]) 10)).failures =
        ["srv" ++ msgSuffix 10 .asyncioTimeout] ∧
      (get_tools (initConnState ([ServerCfg.mapping (some "a") (.returns [1] 0)] ++
          ServerCfg.mapping (some "srv") (.returns [9] 10) ::
          [ServerCfg.mapping none (.returns [2] 5)]) 10)).err = none) :=
  ⟨⟨by decide, by decide, by decide⟩,
   c2_single_failure_skipped 10 _ _ "srv" (.returns [9] 10) .asyncioTimeout
     (by decide) (by decide) (by decide)⟩

/-- Claim C3: once the first load pass has completed (partial failures
included), the cache is never recomputed: over N descriptors, two getTools()
calls invoke the factory and the list-tools capability exactly N times total
(all during the first call, none during the second), and the second call
returns the cached merged list with the state unchanged. -/
theorem c3_second_call_uses_cache (t : Nat) (servers : List ServerCfg)
    (h : ∀ e ∈ servers, noBuildFail e = true) :
    (get_tools (initConnState servers t)).factoryCalls = servers.length ∧
    (get_tools (initConnState servers t)).listCalls = servers.length ∧
    (get_tools ((get_tools (initConnState servers t)).st)).factoryCalls = 0 ∧
    (get_tools ((get_tools (initConnState servers t)).st)).listCalls = 0 ∧
    (get_tools ((get_tools (initConnState servers t)).st)).ret =
      (get_tools (initConnState servers t)).ret ∧
    (get_tools ((get_tools (initConnState servers t)).st)).st =
      (get_tools (initConnState servers t)).st := by
  have hm : ∀ e ∈ servers, ServerCfg.isMapping e = true :=
    fun e he => noBuildFail_isMapping (h e he)
  obtain ⟨herr, hfc⟩ := loadLoop_mapping t servers hm
  have hlc := loadLoop_noBuildFail t servers h
  rw [get_tools_ok t servers herr]
  have h2 := get_tools_loaded ⟨t, servers, (loadLoop t servers).tools, true⟩ rfl
  simp [h2, hfc, hlc]

/-- Witness for C3 at a concrete list with one success and one connect
failure: two factory and two list-tools invocations in total, none on the
second call. -/
theorem c3_witness :
    (∀ e ∈ [ServerCfg.mapping (some "a") (.returns [1] 0),
            ServerCfg.mapping (some "b") (.callRaises (.httpxConnectError "refused"))],
        noBuildFail e = true) ∧
    ((get_tools (initConnState [ServerCfg.mapping (some "a") (.returns [1] 0),
          ServerCfg.mapping (some "b") (.callRaises (.httpxConnectError "refused"))] 10)).factoryCalls = 2 ∧
      (get_tools (initConnState [ServerCfg.mapping (some "a") (.returns [1] 0),
          ServerCfg.mapping (some "b") (.callRaises (.httpxConnectError "refused"))] 10)).listCalls = 2 ∧
      (get_tools ((get_tools (initConnState [ServerCfg.mapping (some "a") (.returns [1] 0),
          ServerCfg.mapping (some "b") (.callRaises (.httpxConnectError "refused"))] 10)).st)).factoryCalls = 0 ∧
      (get_tools ((get_tools (initConnState [ServerCfg.mapping (some "a") (.returns [1] 0),
          ServerCfg.mapping (some "b") (.callRaises (.httpxConnectError "refused"))] 10)).st)).listCalls = 0 ∧
      (get_tools ((get_tools (initConnState [ServerCfg.mapping (some "a") (.returns [1] 0),
          ServerCfg.mapping (some "b") (.callRaises (.httpxConnectError "refused"))] 10)).st)).ret =
        (get_tools (initConnState [ServerCfg.mapping (some "a") (.returns [1] 0),
          ServerCfg.mapping (some "b") (.callRaises (.httpxConnectError "refused"))] 10)).ret ∧
      (get_tools ((get_tools (initConnState [ServerCfg.mapping (some "a") (.returns [1] 0),
          ServerCfg.mapping (some "b") (.callRaises (.httpxConnectError "refused"))] 10)).st)).st =
        (get_tools (initConnState [ServerCfg.mapping (some "a") (.returns [1] 0),
          ServerCfg.mapping (some "b") (.callRaises (.httpxConnectError "refused"))] 10)).st) :=
  ⟨by decide, c3_second_call_uses_cache 10 _ (by decide)⟩

/-- Counterexample to claim C4 at a concrete input: with no explicit list and
resolution selecting an absent file (an explicit env-var path that does not
exist), the loader does fail with the not-found error, yet construction
completes normally with an empty descriptor list instead of raising it to the
caller (the constructor catches every exception from the loader). -/
theorem c4_counterexample :
    load_servers_from_file ⟨false, false, false, none⟩ =
      .error ConfigError.notFound ∧
    mcpConnectorInit none (some ⟨false, false, false, none⟩) 10 =
      initConnState [] 10 :=
  ⟨rfl, rfl⟩

/-- Claim C4 as amended: the file loader classifies the failure modes as the
claim says (absent file as not-found, YAML without the YAML capability as the
missing-dependency error, unparseable text as a parse error), but every such
error is caught inside the constructor, which completes with an empty
descriptor list instead of raising; construction always yields a descriptor
list. -/
theorem c4_amended_loader_errors_swallowed (f : FileModel) (t : Nat) :
    (f.pathExists = false → load_servers_from_file f = .error ConfigError.notFound) ∧
    (f.pathExists = true → f.suffixYaml = true → f.yamlInstalled = false →
      load_servers_from_file f = .error ConfigError.dependencyMissing) ∧
    (f.pathExists = true → (f.suffixYaml = false ∨ f.yamlInstalled = true) →
      f.content = none → load_servers_from_file f = .error ConfigError.parseError) ∧
    (∀ e, load_servers_from_file f = .error e →
      mcpConnectorInit none (some f) t = initConnState [] t) := by
  refine ⟨?_, ?_, ?_, ?_⟩
  · intro hp
    simp [load_servers_from_file, hp]
  · intro hp hy hyi
    simp [load_servers_from_file, hp, hy, hyi]
  · intro hp hcap hc
    cases hcap with
    | inl hy => simp [load_servers_from_file, hp, hy, hc]
    | inr hyi => simp [load_servers_from_file, hp, hyi, hc]
  · intro e he
    simp [mcpConnectorInit, he]

/-- Witness for the amended C4, at a YAML file selected while the YAML
capability is unavailable. -/
theorem c4_amended_witness :
    load_servers_from_file ⟨true, true, false, some .dataOther⟩ =
      .error ConfigError.dependencyMissing ∧
    mcpConnectorInit none (some ⟨true, true, false, some .dataOther⟩) 5 =
      initConnState [] 5 :=
  ⟨(c4_amended_loader_errors_swallowed ⟨true, true, false, some .dataOther⟩ 5).2.1
      rfl rfl rfl,
   (c4_amended_loader_errors_swallowed ⟨true, true, false, some .dataOther⟩ 5).2.2.2
      ConfigError.dependencyMissing
      ((c4_amended_loader_errors_swallowed ⟨true, true, false, some .dataOther⟩ 5).2.1
        rfl rfl rfl)⟩

/-- Counterexample to claim C5 at a concrete input: in a file containing both
keys, with `servers` bound to the empty list and `mcpServers` to a one-element
list, the loaded descriptors are the `mcpServers` value, not the `servers`
value — the lookup chain uses Python truthiness, so an empty `servers` list
falls through to the next key, contradicting "regardless of the contents
(e.g. emptiness) of the servers value". -/
theorem c5_counterexample :
    load_servers_from_file ⟨true, false, false,
        some (.dataDict (some (.pyList []))
          (some (.pyList [ServerCfg.mapping (some "a") (.returns [] 0)])) none)⟩ =
      .ok [ServerCfg.mapping (some "a") (.returns [] 0)] ∧
    [ServerCfg.mapping (some "a") (.returns [] 0)] ≠ ([] : List ServerCfg) :=
  ⟨rfl, by decide⟩

/-- Claim C5 as amended: the keys are tried in the fixed order servers,
mcpServers, mcp_servers, and the first whose value is truthy wins — a
non-empty `servers` list does win over `mcpServers` whatever the other keys
hold, and a file with only a non-empty `mcpServers` list yields it verbatim,
but an empty (falsy) `servers` value is skipped in favour of a non-empty
`mcpServers`. -/
theorem c5_amended_first_truthy_key_wins (xs ys : List ServerCfg) (b c : Option PyVal) :
    (xs ≠ [] → load_servers_from_file ⟨true, false, false,
        some (.dataDict (some (.pyList xs)) b c)⟩ = .ok xs) ∧
    (ys ≠ [] → load_servers_from_file ⟨true, false, false,
        some (.dataDict none (some (.pyList ys)) none)⟩ = .ok ys) ∧
    (ys ≠ [] → load_servers_from_file ⟨true, false, false,
        some (.dataDict (some (.pyList [])) (some (.pyList ys)) none)⟩ = .ok ys) := by
  refine ⟨?_, ?_, ?_⟩
  · intro hx
    cases xs with
    | nil => exact absurd rfl hx
    | cons x xs => simp [load_servers_from_file, pyOr, PyVal.isTruthy]
  · intro hy
    cases ys with
    | nil => exact absurd rfl hy
    | cons y ys => simp [load_servers_from_file, pyOr, PyVal.isTruthy]
  · intro hy
    cases ys with
    | nil => exact absurd rfl hy
    | cons y ys => simp [load_servers_from_file, pyOr, PyVal.isTruthy]

/-- Witness for the amended C5 at concrete one-element lists. -/
theorem c5_amended_witness :
    ([ServerCfg.mapping (some "x") (.returns [3] 1)] ≠ ([] : List ServerCfg) ∧
     [ServerCfg.mapping (some "y") (.returns [4] 2)] ≠ ([] : List ServerCfg)) ∧
    (load_servers_from_file ⟨true, false, false,
        some (.dataDict (some (.pyList [ServerCfg.mapping (some "x") (.returns [3] 1)]))
          (some (.pyOther false)) none)⟩ =
      .ok [ServerCfg.mapping (some "x") (.returns [3] 1)] ∧
     load_servers_from_file ⟨true, false, false,
        some (.dataDict none
          (some (.pyList [ServerCfg.mapping (some "y") (.returns [4] 2)])) none)⟩ =
      .ok [ServerCfg.mapping (some "y") (.returns [4] 2)] ∧
     load_servers_from_file ⟨true, false, false,
        some (.dataDict (some (.pyList []))
          (some (.pyList [ServerCfg.mapping (some "y") (.returns [4] 2)])) none)⟩ =
      .ok [ServerCfg.mapping (some "y") (.returns [4] 2)]) :=
  ⟨⟨by decide, by decide⟩,
   (c5_amended_first_truthy_key_wins [ServerCfg.mapping (some "x") (.returns [3] 1)]
      [ServerCfg.mapping (some "y") (.returns [4] 2)]
      (some (.pyOther false)) none).1 (by decide),
   (c5_amended_first_truthy_key_wins [ServerCfg.mapping (some "x") (.returns [3] 1)]
      [ServerCfg.mapping (some "y") (.returns [4] 2)]
      (some (.pyOther false)) none).2.1 (by decide),
   (c5_amended_first_truthy_key_wins [ServerCfg.mapping (some "x") (.returns [3] 1)]
      [ServerCfg.mapping (some "y") (.returns [4] 2)]
      (some (.pyOther false)) none).2.2 (by decide)⟩

/-- Claim C6: an explicit descriptor list passed to the constructor becomes
the descriptors, and no config-file resolution or parsing is consulted — the
result is the same for every resolved file, including a valid one. -/
theorem c6_explicit_list_wins (s : List ServerCfg) (resolved : Option FileModel)
    (t : Nat) : mcpConnectorInit (some s) resolved t = initConnState s t := rfl

/-- Claim C7: with no explicit list and no config file found, construction
succeeds with an empty descriptor list, and getTools() returns the empty
sequence with zero failure records and no exception. -/
theorem c7_no_config_found_empty (t : Nat) :
    mcpConnectorInit none none t = initConnState [] t ∧
    (get_tools (mcpConnectorInit none none t)).ret = some [] ∧
    (get_tools (mcpConnectorInit none none t)).failures = [] ∧
    (get_tools (mcpConnectorInit none none t)).err = none := by
  refine ⟨rfl, ?_, ?_, ?_⟩ <;>
    simp [mcpConnectorInit, get_tools, load_all_tools, initConnState, loadLoop]

/-- Claim C9: on a descriptor list of well-formed (mapping) entries, no
exception raised during per-descriptor processing escapes getTools(): every
failure is converted into a failure record, the error branch is unreachable,
and a result list is always produced. -/
theorem c9_failures_never_escape (t : Nat) (servers : List ServerCfg)
    (h : ∀ e ∈ servers, ServerCfg.isMapping e = true) :
    (get_tools (initConnState servers t)).err = none ∧
    (get_tools (initConnState servers t)).ret.isSome = true := by
  obtain ⟨herr, -⟩ := loadLoop_mapping t servers h
  rw [get_tools_ok t servers herr]
  simp

/-- Witness for C9 at a list whose entries all fail, one per error kind. -/
theorem c9_witness :
    (∀ e ∈ [ServerCfg.mapping (some "a") (.buildRaises (.fileNotFound "no cmd")),
            ServerCfg.mapping (some "b") (.callRaises (.httpxConnectError "refused")),
            ServerCfg.mapping (some "c") (.returns [7] 99),
            ServerCfg.mapping none (.callRaises (.otherError "ValueError" "bad"))],
        ServerCfg.isMapping e = true) ∧
    ((get_tools (initConnState
        [ServerCfg.mapping (some "a") (.buildRaises (.fileNotFound "no cmd")),
         ServerCfg.mapping (some "b") (.callRaises (.httpxConnectError "refused")),
         ServerCfg.mapping (some "c") (.returns [7] 99),
         ServerCfg.mapping none (.callRaises (.otherError "ValueError" "bad"))] 10)).err =
        none ∧
      (get_tools (initConnState
        [ServerCfg.mapping (some "a") (.buildRaises (.fileNotFound "no cmd")),
         ServerCfg.mapping (some "b") (.callRaises (.httpxConnectError "refused")),
         ServerCfg.mapping (some "c") (.returns [7] 99),
         ServerCfg.mapping none (.callRaises (.otherError "ValueError" "bad"))] 10)).ret.isSome =
        true) :=
  ⟨by decide, c9_failures_never_escape 10 _ (by decide)⟩

/-- Claim C10: the cache and flag are written only after every descriptor is
processed, so when a non-mapping descriptor makes an exception escape the
load, the instance state is exactly the initial one (empty cache, flag still
false), the exception propagates with no result, and a subsequent getTools()
call re-attempts the full load from the beginning (it behaves identically,
re-invoking the factory for the whole prefix). -/
theorem c10_escaping_exception_leaves_state (t : Nat) (pre rest : List ServerCfg)
    (m : String) (h : ∀ e ∈ pre, ServerCfg.isMapping e = true) :
    (get_tools (initConnState (pre ++ ServerCfg.nonMapping m :: rest) t)).ret = none ∧
    (get_tools (initConnState (pre ++ ServerCfg.nonMapping m :: rest) t)).err =
      some (.attributeError m) ∧
    (get_tools (initConnState (pre ++ ServerCfg.nonMapping m :: rest) t)).st =
      initConnState (pre ++ ServerCfg.nonMapping m :: rest) t ∧
    (get_tools (initConnState (pre ++ ServerCfg.nonMapping m :: rest) t)).st.tools = [] ∧
    (get_tools (initConnState (pre ++ ServerCfg.nonMapping m :: rest) t)).st.loaded = false ∧
    (get_tools (initConnState (pre ++ ServerCfg.nonMapping m :: rest) t)).factoryCalls =
      pre.length ∧
    get_tools ((get_tools (initConnState (pre ++ ServerCfg.nonMapping m :: rest) t)).st) =
      get_tools (initConnState (pre ++ ServerCfg.nonMapping m :: rest) t) := by
  obtain ⟨herr, hfc⟩ := loadLoop_nonMapping t pre rest m h
  have hmain := get_tools_err t (pre ++ ServerCfg.nonMapping m :: rest)
    (.attributeError m) herr
  have h7 : (get_tools (initConnState (pre ++ ServerCfg.nonMapping m :: rest) t)).st =
      initConnState (pre ++ ServerCfg.nonMapping m :: rest) t := by rw [hmain]
  exact ⟨by rw [hmain], by rw [hmain], h7, by rw [h7]; rfl, by rw [h7]; rfl,
    by rw [hmain]; exact hfc, by rw [h7]⟩

/-- Witness for C10: one successful mapping descriptor followed by a
non-mapping descriptor; the exception escapes, the state stays fresh, and the
second call behaves identically. -/
theorem c10_witness :
    (∀ e ∈ [ServerCfg.mapping (some "a") (.returns [1] 0)],
        ServerCfg.isMapping e = true) ∧
    ((get_tools (initConnState ([ServerCfg.mapping (some "a") (.returns [1] 0)] ++
          ServerCfg.nonMapping "str has no attr get" :: []) 10)).ret = none ∧
      (get_tools (initConnState ([ServerCfg.mapping (some "a") (.returns [1] 0)] ++
          ServerCfg.nonMapping "str has no attr get" :: []) 10)).err =
        some (.attributeError "str has no attr get") ∧
      (get_tools (initConnState ([ServerCfg.mapping (some "a") (.returns [1] 0)] ++
          ServerCfg.nonMapping "str has no attr get" :: []) 10)).st =
        initConnState ([ServerCfg.mapping (some "a") (.returns [1] 0)] ++
          ServerCfg.nonMapping "str has no attr get" :: []) 10 ∧
      (get_tools (initConnState ([ServerCfg.mapping (some "a") (.returns [1] 0)] ++
          ServerCfg.nonMapping "str has no attr get" :: []) 10)).st.tools = [] ∧
      (get_tools (initConnState ([ServerCfg.mapping (some "a") (.returns [1] 0)] ++
          ServerCfg.nonMapping "str has no attr get" :: []) 10)).st.loaded = false ∧
      (get_tools (initConnState ([ServerCfg.mapping (some "a") (.returns [1] 0)] ++
          ServerCfg.nonMapping "str has no attr get" :: []) 10)).factoryCalls = 1 ∧
      get_tools ((get_tools (initConnState ([ServerCfg.mapping (some "a") (.returns [1] 0)] ++
          ServerCfg.nonMapping "str has no attr get" :: []) 10)).st) =
        get_tools (initConnState ([ServerCfg.mapping (some "a") (.returns [1] 0)] ++
          ServerCfg.nonMapping "str has no attr get" :: []) 10)) :=
  ⟨by decide, c10_escaping_exception_leaves_state 10 _ [] "str has no attr get" (by decide)⟩

lemma Store.read_alloc_new (s : Store) (v : List Nat) :
    (s.alloc v).1.read (s.alloc v).2 = v := by
  simp [Store.alloc, Store.read, List.getD]

lemma Store.read_alloc_old (s : Store) (v : List Nat) (r : Nat)
    (h : r < s.cells.length) :
    (s.alloc v).1.read r = s.read r := by
  simp [Store.alloc, Store.read, List.getD, List.getElem?_append, h]

lemma Store.read_mutate_ne (s : Store) (r r2 : Nat) (v : List Nat)
    (h : r ≠ r2) : (s.mutate r v).read r2 = s.read r2 := by
  simp [Store.mutate, Store.read, List.getD]
  rw [List.getElem?_set_ne h]

/-- Claim C8: `getTools()` returns a shallow copy of the cached sequence.  In
the heap model of a loaded instance, the returned reference is a fresh object
distinct from the internal cache cell; it initially holds the cached contents,
and mutating the returned object (rewriting its contents to any `v`) leaves
the cached cell unchanged, so a subsequent call still returns the original
cached contents. -/
theorem c8_returns_shallow_copy (s : Store) (toolsRef : Nat) (v : List Nat)
    (h : toolsRef < s.cells.length) :
    (get_tools_heap toolsRef s).2 ≠ toolsRef ∧
    (get_tools_heap toolsRef s).1.read (get_tools_heap toolsRef s).2 =
      s.read toolsRef ∧
    ((get_tools_heap toolsRef s).1.mutate (get_tools_heap toolsRef s).2 v).read
      toolsRef = s.read toolsRef ∧
    (get_tools_heap toolsRef
        ((get_tools_heap toolsRef s).1.mutate (get_tools_heap toolsRef s).2 v)).1.read
      (get_tools_heap toolsRef
        ((get_tools_heap toolsRef s).1.mutate (get_tools_heap toolsRef s).2 v)).2 =
      s.read toolsRef := by
  have hfresh : (get_tools_heap toolsRef s).2 = s.cells.length := rfl
  have h1 : (get_tools_heap toolsRef s).2 ≠ toolsRef := by
    rw [hfresh]; omega
  have hcopy : ∀ s2 : Store,
      (get_tools_heap toolsRef s2).1.read (get_tools_heap toolsRef s2).2 =
        s2.read toolsRef :=
    fun s2 => Store.read_alloc_new s2 (s2.read toolsRef)
  have h3 : ((get_tools_heap toolsRef s).1.mutate (get_tools_heap toolsRef s).2 v).read
      toolsRef = s.read toolsRef := by
    rw [Store.read_mutate_ne _ _ _ _ h1]
    exact Store.read_alloc_old s _ toolsRef h
  exact ⟨h1, hcopy s, h3, (hcopy _).trans h3⟩

/-- Witness for C8 at a one-cell store holding the cached list [1, 2],
mutated to [7] through the returned reference. -/
theorem c8_witness :
    (0 : Nat) < (Store.mk [[1, 2]]).cells.length ∧
    ((get_tools_heap 0 (Store.mk [[1, 2]])).2 ≠ 0 ∧
      (get_tools_heap 0 (Store.mk [[1, 2]])).1.read
        (get_tools_heap 0 (Store.mk [[1, 2]])).2 = (Store.mk [[1, 2]]).read 0 ∧
      ((get_tools_heap 0 (Store.mk [[1, 2]])).1.mutate
        (get_tools_heap 0 (Store.mk [[1, 2]])).2 [7]).read 0 =
        (Store.mk [[1, 2]]).read 0 ∧
      (get_tools_heap 0
          ((get_tools_heap 0 (Store.mk [[1, 2]])).1.mutate
            (get_tools_heap 0 (Store.mk [[1, 2]])).2 [7])).1.read
        (get_tools_heap 0
          ((get_tools_heap 0 (Store.mk [[1, 2]])).1.mutate
            (get_tools_heap 0 (Store.mk [[1, 2]])).2 [7])).2 =
        (Store.mk [[1, 2]]).read 0) :=
  ⟨by decide, c8_returns_shallow_copy (Store.mk [[1, 2]]) 0 [7] (by decide)⟩
